import Mathlib

/-!
Verification development for magma `engine/context/signal.c`.

Each signal handler is shallowly embedded as a Lean function that returns the
ordered list of observable effects (log lines, sleeps, thread operations,
mutex operations, calls into external subsystems) the C function performs,
together with how the handler terminates.  External collaborators that only
return a value to the handler (`status()`, `http_content_refresh()`, the
success of `sigemptyset`/`sigaction`) are passed in as parameters.  The
bootstrap `signal_start` additionally threads the process signal-disposition
table, so that the installed dispositions can be stated precisely.
-/

/-- The signals that appear in `signal.c`. -/
inductive Sig where
  | SIGINT | SIGQUIT | SIGTERM | SIGHUP | SIGPIPE
  | SIGSEGV | SIGFPE | SIGBUS | SIGSYS | SIGABRT | SIGALRM
deriving DecidableEq

/-- The handler functions of `signal.c` that can be installed as dispositions. -/
inductive HandlerId where
  | hShutdown | hSegfault | hRefresh | hStatus
deriving DecidableEq

/-- A signal disposition: a handler from this file, explicit ignore (SIG_IGN),
or the platform default (SIG_DFL). -/
inductive Disposition where
  | handler (h : HandlerId)
  | ignore
  | dfl
deriving DecidableEq

/-- How a handler invocation terminates: a normal return, or abnormal process
termination via `abort()`. -/
inductive HandlerExit where
  | normal
  | aborted
deriving DecidableEq

/-- Observable effects performed by the functions in `signal.c`. -/
inductive Event where
  | logCritical (msg : String)
  | logError (msg : String)
  | logInfo (msg : String)
  | threadLaunch (fn : String)
  | sleepFor (sec nsec : Nat)
  | queueSignal
  | netTrigger (b : Bool)
  | threadJoin
  | statusSet (v : Int)
  | mutexLock (m : String)
  | mutexUnlock (m : String)
  | httpContentRefresh (ok : Bool)
  | restoreDefault (s : Sig)
  | abortCall
  | sigemptysetEvt (ok : Bool)
  | sigactionEvt (s : Sig) (d : Disposition) (flags : Nat) (ok : Bool)
deriving DecidableEq

/-- The process signal-disposition table: each signal maps to a disposition
and the `sa_flags` it was installed with. -/
abbrev Table := Sig → Disposition × Nat

/-- At process start every signal has the default disposition. -/
def initTable : Table := fun _ => (Disposition.dfl, 0)

/-- Linux value of the one-shot flag `SA_RESETHAND` (0x80000000); only its
distinctness from 0 matters here. -/
def SA_RESETHAND : Nat := 2147483648

/-- Effect of a successful `sigaction(s, act, NULL)` on the table. -/
def setDisp (t : Table) (s : Sig) (d : Disposition) (f : Nat) : Table :=
  fun x => if x = s then (d, f) else t x

/-- Static text of the log line in `signal_shutdown` (the formatted signal
name is dynamic and omitted). -/
def shutdownLogMsg : String :=
  "Signal received. The Magma daemon is attempting a graceful exit."

/-- Static text of the log line in `signal_segfault`. -/
def crashLogMsg : String :=
  "Memory corruption has been detected. Attempting to print a back trace and exit."

/-- Static text of the log line in `signal_status` (source wording, with the
contraction spelled out). -/
def statusLogMsg : String :=
  "This worker thread was signaled but the status function does not indicate a shutdown is in progress."

/-- Failure log line of `signal_refresh`. -/
def refreshErrMsg : String :=
  "An error occurred while trying to refresh disk based content."

/-- Success log line of `signal_refresh`. -/
def refreshOkMsg : String := "Disk content refreshed."

/-- Failure log line of the shutdown-handler and crash-handler registration
groups in `signal_start` (the source uses the same text for both). -/
def shutdownSetupErr : String := "Could not setup the shutdown signal handler."

/-- Failure log line of the SIGPIPE registration group (no trailing period in
the source). -/
def ignoreSetupErr : String := "Could not setup the ignore signal handler"

/-- Failure log line of the SIGHUP group in `signal_start` and of
`signal_thread_start`. -/
def threadSetupErr : String := "Could not setup the thread status signal handler."

/-- Embedding of `signal_segfault` (signal.c lines 19-39): log a critical
diagnostic, restore the default disposition for SIGABRT via
`sigaction(SIGABRT, SIG_DFL)`, then call `abort()`; it never returns. -/
def signal_segfault (signal : Int) : List Event × HandlerExit :=
  ([Event.logCritical crashLogMsg,
    Event.restoreDefault Sig.SIGABRT,
    Event.abortCall],
   HandlerExit.aborted)

/-- Embedding of `signal_shutdown` (signal.c lines 52-85): log, launch the
`status_signal` helper thread, sleep 0.1 s, `queue_signal()`, sleep three
times 1 s, `net_trigger(true)`, `queue_signal()` again, join the helper. -/
def signal_shutdown (signal : Int) : List Event × HandlerExit :=
  ([Event.logCritical shutdownLogMsg,
    Event.threadLaunch "status_signal",
    Event.sleepFor 0 100000000,
    Event.queueSignal,
    Event.sleepFor 1 0,
    Event.sleepFor 1 0,
    Event.sleepFor 1 0,
    Event.netTrigger true,
    Event.queueSignal,
    Event.threadJoin],
   HandlerExit.normal)

/-- Embedding of `signal_status` (signal.c lines 93-100).  `running` is the
truth value returned by the external `status()` predicate: true means the
process status still indicates Running. -/
def signal_status (signal : Int) (running : Bool) : List Event × HandlerExit :=
  (if running then [Event.logInfo statusLogMsg] else [], HandlerExit.normal)

/-- Embedding of `signal_refresh` (signal.c lines 107-121).  `refreshOk` is
the value returned by the external `http_content_refresh()`. -/
def signal_refresh (signal : Int) (refreshOk : Bool) : List Event × HandlerExit :=
  ([Event.mutexLock "sig_hup_mutex",
    Event.httpContentRefresh refreshOk] ++
   (if !refreshOk then [Event.logError refreshErrMsg]
    else [Event.logInfo refreshOkMsg]) ++
   [Event.mutexUnlock "sig_hup_mutex"],
   HandlerExit.normal)

/-- True exactly on status-write events; none of the handlers in `signal.c`
emits one. -/
def isStatusSet : Event → Bool
  | Event.statusSet _ => true
  | _ => false

/-- True on the three leveled log events. -/
def isLogEvt : Event → Bool
  | Event.logCritical _ => true
  | Event.logError _ => true
  | Event.logInfo _ => true
  | _ => false

/-- True on registration-call events (`sigemptyset` / `sigaction`). -/
def isCallEvt : Event → Bool
  | Event.sigemptysetEvt _ => true
  | Event.sigactionEvt _ _ _ _ => true
  | _ => false

/-- True on failed registration-call events. -/
def isFailedCallEvt : Event → Bool
  | Event.sigemptysetEvt false => true
  | Event.sigactionEvt _ _ _ false => true
  | _ => false

/-- A trace with no failed registration call in it. -/
def clean (l : List Event) : Bool :=
  l.all (fun e => !(isFailedCallEvt e))

/-- After the first failed registration call in the trace, no further
registration call is attempted. -/
def noCallAfterFail : List Event → Bool
  | [] => true
  | e :: rest =>
      if isFailedCallEvt e then rest.all (fun x => !(isCallEvt x))
      else noCallAfterFail rest

/-- The last event of the trace is a log line. -/
def lastIsLog (l : List Event) : Bool :=
  (l.getLast?.map isLogEvt).getD false

/-- Outcome of every individual `sigemptyset` / `sigaction` call made by
`signal_start`, in source order (true means the call succeeded). -/
structure Env where
  emptyNormal : Bool
  saINT : Bool
  saQUIT : Bool
  saTERM : Bool
  emptyIgnored : Bool
  saPIPE : Bool
  emptySegv : Bool
  saSEGV : Bool
  saFPE : Bool
  saBUS : Bool
  saSYS : Bool
  saABRT : Bool
  emptyHup : Bool
  saHUP : Bool
deriving DecidableEq

/-- All fourteen registration calls of `signal_start` succeed. -/
def allOk (env : Env) : Bool :=
  (env.emptyNormal && (env.saINT && (env.saQUIT && env.saTERM))) &&
  ((env.emptyIgnored && env.saPIPE) &&
   ((env.emptySegv &&
       (env.saSEGV && (env.saFPE && (env.saBUS && (env.saSYS && env.saABRT))))) &&
    (env.emptyHup && env.saHUP)))

/-- The environment in which every call succeeds. -/
def envAll : Env :=
  ⟨true, true, true, true, true, true, true,
   true, true, true, true, true, true, true⟩

/-- The environment in which only the `sigaction(SIGPIPE, ...)` call fails. -/
def envPipeFail : Env := { envAll with saPIPE := false }

/-- The short-circuited chain `sigaction(s1,...) || sigaction(s2,...) || ...`
inside one `if` of `signal_start`: attempt the calls left to right with the
same handler and flags, stop at the first failure, record each attempted call
and each successful update of the disposition table. -/
def tryActions (t : Table) (d : Disposition) (f : Nat) :
    List (Sig × Bool) → Table × List Event × Bool
  | [] => (t, [], true)
  | (s, ok) :: rest =>
      if ok then
        let r := tryActions (setDisp t s d f) d f rest
        (r.1, Event.sigactionEvt s d f true :: r.2.1, r.2.2)
      else
        (t, [Event.sigactionEvt s d f false], false)

/-- One registration block of `signal_start`: `mm_wipe` the struct (no
observable effect), then `if (sigemptyset(...) || sigaction(...) || ...)` log
the failure message and fail, otherwise succeed. -/
def regGroup (t : Table) (emptyOk : Bool) (d : Disposition) (f : Nat)
    (l : List (Sig × Bool)) (msg : String) : Table × List Event × Bool :=
  if emptyOk then
    let r := tryActions t d f l
    if r.2.2 then (r.1, Event.sigemptysetEvt true :: r.2.1, true)
    else (r.1, Event.sigemptysetEvt true :: (r.2.1 ++ [Event.logInfo msg]), false)
  else
    (t, [Event.sigemptysetEvt false, Event.logInfo msg], false)

/-- Shutdown-handler block of `signal_start` (signal.c lines 161-168). -/
def group1 (env : Env) (t : Table) : Table × List Event × Bool :=
  regGroup t env.emptyNormal (Disposition.handler HandlerId.hShutdown) 0
    [(Sig.SIGINT, env.saINT), (Sig.SIGQUIT, env.saQUIT), (Sig.SIGTERM, env.saTERM)]
    shutdownSetupErr

/-- SIGPIPE-ignore block of `signal_start` (signal.c lines 170-177). -/
def group2 (env : Env) (t : Table) : Table × List Event × Bool :=
  regGroup t env.emptyIgnored Disposition.ignore 0
    [(Sig.SIGPIPE, env.saPIPE)]
    ignoreSetupErr

/-- Crash-handler block of `signal_start` (signal.c lines 179-190), installed
with the one-shot flag `SA_RESETHAND`. -/
def group3 (env : Env) (t : Table) : Table × List Event × Bool :=
  regGroup t env.emptySegv (Disposition.handler HandlerId.hSegfault) SA_RESETHAND
    [(Sig.SIGSEGV, env.saSEGV), (Sig.SIGFPE, env.saFPE), (Sig.SIGBUS, env.saBUS),
     (Sig.SIGSYS, env.saSYS), (Sig.SIGABRT, env.saABRT)]
    shutdownSetupErr

/-- SIGHUP-refresh block of `signal_start` (signal.c lines 192-199). -/
def group4 (env : Env) (t : Table) : Table × List Event × Bool :=
  regGroup t env.emptyHup (Disposition.handler HandlerId.hRefresh) 0
    [(Sig.SIGHUP, env.saHUP)]
    threadSetupErr

/-- Embedding of `signal_start` (signal.c lines 154-202): the four
registration blocks run in source order, each `return false` aborts the rest,
and the function returns true only after the last block succeeds.  The result
is (return value, final disposition table, event trace). -/
def signal_start (env : Env) : Bool × Table × List Event :=
  let g1 := group1 env initTable
  if g1.2.2 then
    let g2 := group2 env g1.1
    if g2.2.2 then
      let g3 := group3 env g2.1
      if g3.2.2 then
        let g4 := group4 env g3.1
        (g4.2.2, g4.1, g1.2.1 ++ (g2.2.1 ++ (g3.2.1 ++ g4.2.1)))
      else (false, g3.1, g1.2.1 ++ (g2.2.1 ++ g3.2.1))
    else (false, g2.1, g1.2.1 ++ g2.2.1)
  else (false, g1.1, g1.2.1)

/-- Embedding of `signal_thread_start` (signal.c lines 128-143): the
per-thread SIGALRM registration of `signal_status`, with the same
fail-and-log shape as one block of `signal_start`. -/
def signal_thread_start (emptyOk saAlarmOk : Bool) : Table × List Event × Bool :=
  regGroup initTable emptyOk (Disposition.handler HandlerId.hStatus) 0
    [(Sig.SIGALRM, saAlarmOk)]
    threadSetupErr

/-- Modelled from the spec: OS-level delivery of a signal under the installed
disposition table (the implementation lives in the platform, outside this
repository).  A handler disposition invokes the handler, first reverting to
the default disposition when it was installed one-shot (the one-shot
disposition of the glossary: it automatically reverts to the platform default
after its first delivery); an ignore disposition does nothing and the process
survives; the default disposition invokes no handler and, for every signal
considered here, terminates the process.  Result: (table after delivery,
handler invoked, process still alive). -/
def deliver (t : Table) (s : Sig) : Table × Option HandlerId × Bool :=
  match t s with
  | (Disposition.handler h, f) =>
      (if f = SA_RESETHAND then setDisp t s Disposition.dfl 0 else t, some h, true)
  | (Disposition.ignore, _) => (t, none, true)
  | (Disposition.dfl, _) => (t, none, false)

/-- Iterated delivery of the same signal: (final table, process alive
throughout, number of handler invocations). -/
def deliverN (t : Table) (s : Sig) : Nat → Table × Bool × Nat
  | 0 => (t, true, 0)
  | n + 1 =>
      let d := deliver t s
      let r := deliverN d.1 s n
      (r.1, d.2.2 && r.2.1, (if d.2.1.isSome then 1 else 0) + r.2.2)

/-- The five fatal signals handled by `signal_segfault`. -/
def fatalSigs : List Sig :=
  [Sig.SIGSEGV, Sig.SIGFPE, Sig.SIGBUS, Sig.SIGSYS, Sig.SIGABRT]

/-- One `signal_refresh` invocation as a sequence of atomic instructions, for
reasoning about two concurrent invocations: lock `sig_hup_mutex`, run
`http_content_refresh`, log the outcome, unlock. -/
inductive RInstr where
  | lockI | refreshI | logI | unlockI
deriving DecidableEq

/-- Instruction sequence of one `signal_refresh` invocation. -/
def refreshProg : List RInstr :=
  [RInstr.lockI, RInstr.refreshI, RInstr.logI, RInstr.unlockI]

/-- Suffix of `refreshProg` after the lock. -/
def rp3 : List RInstr := [RInstr.refreshI, RInstr.logI, RInstr.unlockI]

/-- Suffix of `refreshProg` after the refresh call. -/
def rp2 : List RInstr := [RInstr.logI, RInstr.unlockI]

/-- Suffix of `refreshProg` holding only the unlock. -/
def rp1 : List RInstr := [RInstr.unlockI]

/-- Joint state of two concurrent `signal_refresh` invocations: the remaining
instructions of each handler and the current owner of `sig_hup_mutex`. -/
structure RState where
  rest0 : List RInstr
  rest1 : List RInstr
  owner : Option Bool
deriving DecidableEq

/-- Both invocations poised at their first instruction, mutex free. -/
def initRState : RState := ⟨refreshProg, refreshProg, none⟩

/-- Remaining instructions of a thread. -/
def rrest (s : RState) (t : Bool) : List RInstr :=
  if t then s.rest1 else s.rest0

/-- Replace the remaining instructions of a thread. -/
def setRest (s : RState) (t : Bool) (l : List RInstr) : RState :=
  if t then { s with rest1 := l } else { s with rest0 := l }

/-- One scheduler step of thread `t`: `lockI` blocks (no step possible)
unless the mutex is free, and then takes it; `unlockI` releases it; the
instructions in between run while the thread holds the mutex.  Returns the
new state and the emitted event, or none when the thread cannot step. -/
def rstep (s : RState) (t : Bool) : Option (RState × (Bool × RInstr)) :=
  match rrest s t with
  | [] => none
  | i :: rest =>
      match i with
      | RInstr.lockI =>
          if s.owner = none then
            some ({ setRest s t rest with owner := some t }, (t, i))
          else none
      | RInstr.unlockI =>
          some ({ setRest s t rest with owner := none }, (t, i))
      | _ => some (setRest s t rest, (t, i))

/-- Run a schedule (a list of thread choices); fails when a chosen thread
cannot step there. -/
def runSched (s : RState) : List Bool → Option (RState × List (Bool × RInstr))
  | [] => some (s, [])
  | t :: ts =>
      match rstep s t with
      | none => none
      | some (s1, e) =>
          match runSched s1 ts with
          | none => none
          | some (s2, tr) => some (s2, e :: tr)

/-- The four events of one full invocation by thread `t`. -/
def tagged (t : Bool) : List (Bool × RInstr) :=
  refreshProg.map (fun i => (t, i))

/-- Thread 0 completes its whole invocation before thread 1 starts. -/
def serial01 : List (Bool × RInstr) := tagged false ++ tagged true

/-- Thread 1 completes its whole invocation before thread 0 starts. -/
def serial10 : List (Bool × RInstr) := tagged true ++ tagged false

/-- All reachable (state, trace) pairs of the two-invocation system.
Because `signal_refresh` locks the mutex as its very first action, the
blocked invocation can take no step at all until the other has unlocked. -/
def reachPairs : List (RState × List (Bool × RInstr)) :=
  [ (⟨refreshProg, refreshProg, none⟩, []),
    (⟨rp3, refreshProg, some false⟩, (tagged false).take 1),
    (⟨rp2, refreshProg, some false⟩, (tagged false).take 2),
    (⟨rp1, refreshProg, some false⟩, (tagged false).take 3),
    (⟨[], refreshProg, none⟩, tagged false),
    (⟨[], rp3, some true⟩, tagged false ++ (tagged true).take 1),
    (⟨[], rp2, some true⟩, tagged false ++ (tagged true).take 2),
    (⟨[], rp1, some true⟩, tagged false ++ (tagged true).take 3),
    (⟨[], [], none⟩, serial01),
    (⟨refreshProg, rp3, some true⟩, (tagged true).take 1),
    (⟨refreshProg, rp2, some true⟩, (tagged true).take 2),
    (⟨refreshProg, rp1, some true⟩, (tagged true).take 3),
    (⟨refreshProg, [], none⟩, tagged true),
    (⟨rp3, [], some false⟩, tagged true ++ (tagged false).take 1),
    (⟨rp2, [], some false⟩, tagged true ++ (tagged false).take 2),
    (⟨rp1, [], some false⟩, tagged true ++ (tagged false).take 3),
    (⟨[], [], none⟩, serial10) ]

/-- Boolean form of one-step closure of `reachPairs`. -/
def stepOkB (p : RState × List (Bool × RInstr)) (t : Bool) : Bool :=
  match rstep p.1 t with
  | none => true
  | some (s1, e) => decide ((s1, p.2 ++ [e]) ∈ reachPairs)

/-- C1: for every termination signal, `signal_shutdown` performs exactly, and
in this strict order: the graceful-shutdown log, the helper-thread launch,
the 100 ms sleep, the first `queue_signal` broadcast, three successive
one-second sleeps, `net_trigger(true)`, the second `queue_signal` broadcast,
and the helper-thread join, after which it returns; no pair of steps is
reordered. -/
theorem signal_shutdown_order (sig : Int) :
    (signal_shutdown sig).1.length = 10 ∧
    (signal_shutdown sig).1[0]? = some (Event.logCritical shutdownLogMsg) ∧
    (signal_shutdown sig).1[1]? = some (Event.threadLaunch "status_signal") ∧
    (signal_shutdown sig).1[2]? = some (Event.sleepFor 0 100000000) ∧
    (signal_shutdown sig).1[3]? = some Event.queueSignal ∧
    (signal_shutdown sig).1[4]? = some (Event.sleepFor 1 0) ∧
    (signal_shutdown sig).1[5]? = some (Event.sleepFor 1 0) ∧
    (signal_shutdown sig).1[6]? = some (Event.sleepFor 1 0) ∧
    (signal_shutdown sig).1[7]? = some (Event.netTrigger true) ∧
    (signal_shutdown sig).1[8]? = some Event.queueSignal ∧
    (signal_shutdown sig).1[9]? = some Event.threadJoin ∧
    (signal_shutdown sig).2 = HandlerExit.normal :=
  ⟨rfl, rfl, rfl, rfl, rfl, rfl, rfl, rfl, rfl, rfl, rfl, rfl⟩

/-- C3 counterexample: at the concrete input SIGINT (signal number 2) the
handler body of `signal_shutdown` performs no status write at all — in
particular none before the helper-thread launch at position 1; the only step
preceding the launch is the log line.  The claimed synchronous publication of
Draining inside the handler, before the thread launch, therefore does not
happen. -/
theorem signal_shutdown_no_direct_status_write :
    ((signal_shutdown 2).1.all (fun e => !(isStatusSet e)) = true) ∧
    (signal_shutdown 2).1[0]? = some (Event.logCritical shutdownLogMsg) ∧
    (signal_shutdown 2).1[1]? = some (Event.threadLaunch "status_signal") :=
  ⟨rfl, rfl, rfl⟩

/-- C3 amended: on receipt of a termination signal the handler first logs
that a graceful shutdown has begun and then immediately launches the helper
thread `status_signal`, delegating the publication of the Draining status to
that thread; the handler itself performs no direct status write. -/
theorem signal_shutdown_status_via_helper (sig : Int) :
    (signal_shutdown sig).1[0]? = some (Event.logCritical shutdownLogMsg) ∧
    (signal_shutdown sig).1[1]? = some (Event.threadLaunch "status_signal") ∧
    ((signal_shutdown sig).1.all (fun e => !(isStatusSet e)) = true) :=
  ⟨rfl, rfl, rfl⟩

/-- C6: `signal_refresh` locks the reload mutex, invokes the refresh, logs an
error-severity line when the refresh returned false and an informational line
when it returned true, and in both cases releases the mutex as its final step
and returns normally — a refresh failure never terminates the process. -/
theorem signal_refresh_logs_and_releases (sig : Int) (ok : Bool) :
    (signal_refresh sig ok).1 =
      [Event.mutexLock "sig_hup_mutex",
       Event.httpContentRefresh ok,
       (if ok then Event.logInfo refreshOkMsg else Event.logError refreshErrMsg),
       Event.mutexUnlock "sig_hup_mutex"] ∧
    (signal_refresh sig ok).1.getLast? = some (Event.mutexUnlock "sig_hup_mutex") ∧
    (signal_refresh sig ok).2 = HandlerExit.normal := by
  cases ok <;> exact ⟨rfl, rfl, rfl⟩

/-- C7: on delivery of the per-thread wake signal, `signal_status` logs
exactly one informational line when the status still indicates Running, logs
nothing when a shutdown is in progress, never writes the shutdown status, and
returns normally in all cases. -/
theorem signal_status_idempotent (sig : Int) (running : Bool) :
    (signal_status sig running).1 =
      (if running then [Event.logInfo statusLogMsg] else []) ∧
    (signal_status sig running).1.countP isLogEvt = (if running then 1 else 0) ∧
    ((signal_status sig running).1.all (fun e => !(isStatusSet e)) = true) ∧
    (signal_status sig running).2 = HandlerExit.normal := by
  cases running <;> exact ⟨rfl, rfl, rfl, rfl⟩

/-- C10: `signal_refresh` never reads its signal-number argument, so its
entire behavior (events and exit) is identical for any two signal numbers. -/
theorem signal_refresh_ignores_argument (s1 s2 : Int) (ok : Bool) :
    signal_refresh s1 ok = signal_refresh s2 ok :=
  rfl

/-- A trace with no failed call satisfies `noCallAfterFail`. -/
theorem clean_noCallAfterFail (l : List Event) (h : clean l = true) :
    noCallAfterFail l = true := by
  induction l with
  | nil => rfl
  | cons e rest ih =>
      simp [clean, List.all_cons] at h
      simp [noCallAfterFail, h.1]
      exact ih (by simpa [clean] using h.2)

/-- `noCallAfterFail` composes across an append whose prefix is clean. -/
theorem noCallAfterFail_append (xs ys : List Event) (hx : clean xs = true)
    (hy : noCallAfterFail ys = true) : noCallAfterFail (xs ++ ys) = true := by
  induction xs with
  | nil => simpa using hy
  | cons e rest ih =>
      simp [clean, List.all_cons] at hx
      simp [noCallAfterFail, hx.1]
      exact ih (by simpa [clean] using hx.2)

/-- `clean` distributes over append. -/
theorem clean_append (xs ys : List Event) :
    clean (xs ++ ys) = (clean xs && clean ys) := by
  simp [clean, List.all_append]

/-- A log line at the end stays the last element. -/
theorem lastIsLog_append (xs ys : List Event) (h : lastIsLog ys = true) :
    lastIsLog (xs ++ ys) = true := by
  unfold lastIsLog at h ⊢
  cases hy : ys.getLast? with
  | none => rw [hy] at h; simp at h
  | some e =>
      rw [hy] at h
      simp [List.getLast?_append, hy]
      simpa using h

/-- The short-circuit chain succeeds exactly when every call in it succeeds. -/
theorem tryActions_ok (l : List (Sig × Bool)) (t : Table) (d : Disposition) (f : Nat) :
    (tryActions t d f l).2.2 = l.all (fun p => p.2) := by
  induction l generalizing t with
  | nil => rfl
  | cons p rest ih =>
      obtain ⟨s, ok⟩ := p
      cases ok
      · simp [tryActions]
      · simp [tryActions, ih]

/-- The trace of the chain is clean exactly when every call succeeded. -/
theorem tryActions_clean (l : List (Sig × Bool)) (t : Table) (d : Disposition) (f : Nat) :
    clean (tryActions t d f l).2.1 = l.all (fun p => p.2) := by
  induction l generalizing t with
  | nil => rfl
  | cons p rest ih =>
      obtain ⟨s, ok⟩ := p
      cases ok
      · simp [tryActions, clean, isFailedCallEvt]
      · have h1 : (tryActions t d f ((s, true) :: rest)).2.1 =
            Event.sigactionEvt s d f true ::
              (tryActions (setDisp t s d f) d f rest).2.1 := rfl
        have h2 : clean (Event.sigactionEvt s d f true ::
              (tryActions (setDisp t s d f) d f rest).2.1) =
            clean ((tryActions (setDisp t s d f) d f rest).2.1) := by
          simp [clean, isFailedCallEvt]
        rw [h1, h2, ih]
        simp

/-- Appending the failure log line to the trace of the chain keeps the
fail-fast property: after a failed call only the log line follows. -/
theorem tryActions_log_noCall (l : List (Sig × Bool)) (t : Table) (d : Disposition)
    (f : Nat) (m : String) :
    noCallAfterFail ((tryActions t d f l).2.1 ++ [Event.logInfo m]) = true := by
  induction l generalizing t with
  | nil => rfl
  | cons p rest ih =>
      obtain ⟨s, ok⟩ := p
      cases ok
      · simp [tryActions, noCallAfterFail, isFailedCallEvt, isCallEvt]
      · simp [tryActions, noCallAfterFail, isFailedCallEvt]
        exact ih (setDisp t s d f)

/-- Signals not named in the chain keep their previous disposition. -/
theorem tryActions_pres (l : List (Sig × Bool)) (t : Table) (d : Disposition)
    (f : Nat) (x : Sig) (h : ∀ p ∈ l, ¬ x = p.1) :
    (tryActions t d f l).1 x = t x := by
  induction l generalizing t with
  | nil => rfl
  | cons p rest ih =>
      obtain ⟨s, ok⟩ := p
      cases ok
      · rfl
      · have h1 : (tryActions t d f ((s, true) :: rest)).1 =
            (tryActions (setDisp t s d f) d f rest).1 := rfl
        rw [h1, ih (setDisp t s d f) (fun q hq => h q (List.mem_cons_of_mem _ hq))]
        simp [setDisp, h (s, true) (List.mem_cons_self _ _)]

/-- One registration block succeeds exactly when `sigemptyset` and every
`sigaction` in it succeed. -/
theorem regGroup_ok (t : Table) (e : Bool) (d : Disposition) (f : Nat)
    (l : List (Sig × Bool)) (m : String) :
    (regGroup t e d f l m).2.2 = (e && l.all (fun p => p.2)) := by
  cases e
  · rfl
  · rw [← tryActions_ok l t d f]
    simp only [regGroup]
    cases h : (tryActions t d f l).2.2 <;> simp [h]

/-- The trace of one registration block has no failed call exactly when the
block succeeds. -/
theorem regGroup_clean (t : Table) (e : Bool) (d : Disposition) (f : Nat)
    (l : List (Sig × Bool)) (m : String) :
    clean (regGroup t e d f l m).2.1 = (e && l.all (fun p => p.2)) := by
  cases e
  · simp [regGroup, clean, isFailedCallEvt]
  · simp only [regGroup]
    cases h : (tryActions t d f l).2.2
    · simp only [if_true, Bool.false_eq_true, if_false]
      rw [show clean (Event.sigemptysetEvt true ::
            ((tryActions t d f l).2.1 ++ [Event.logInfo m])) =
          (clean ((tryActions t d f l).2.1) && clean [Event.logInfo m]) from by
        simp [clean, isFailedCallEvt, List.all_append]]
      rw [tryActions_clean]
      simp [clean, isFailedCallEvt]
    · simp only [if_true]
      rw [show clean (Event.sigemptysetEvt true :: (tryActions t d f l).2.1) =
          clean ((tryActions t d f l).2.1) from by simp [clean, isFailedCallEvt]]
      rw [tryActions_clean]
      simp

/-- Fail-fast inside one registration block: after a failed call, no further
call is attempted. -/
theorem regGroup_noCall (t : Table) (e : Bool) (d : Disposition) (f : Nat)
    (l : List (Sig × Bool)) (m : String) :
    noCallAfterFail (regGroup t e d f l m).2.1 = true := by
  cases e
  · simp [regGroup, noCallAfterFail, isFailedCallEvt, isCallEvt]
  · simp only [regGroup]
    cases h : (tryActions t d f l).2.2
    · simp [h, noCallAfterFail, isFailedCallEvt]
      exact tryActions_log_noCall l t d f m
    · simp [h, noCallAfterFail, isFailedCallEvt]
      refine clean_noCallAfterFail _ ?_
      rw [tryActions_clean, ← tryActions_ok l t d f]
      exact h

/-- A failed registration block ends its trace with the failure log line. -/
theorem regGroup_lastLog (t : Table) (e : Bool) (d : Disposition) (f : Nat)
    (l : List (Sig × Bool)) (m : String)
    (hf : (regGroup t e d f l m).2.2 = false) :
    lastIsLog (regGroup t e d f l m).2.1 = true := by
  cases e
  · show lastIsLog ([Event.sigemptysetEvt false] ++ [Event.logInfo m]) = true
    unfold lastIsLog
    rw [List.getLast?_concat]
    rfl
  · simp only [regGroup] at hf ⊢
    cases h : (tryActions t d f l).2.2
    · simp only [if_true, Bool.false_eq_true, if_false]
      show lastIsLog ((Event.sigemptysetEvt true :: (tryActions t d f l).2.1) ++
        [Event.logInfo m]) = true
      unfold lastIsLog
      rw [List.getLast?_concat]
      rfl
    · rw [h] at hf; simp at hf

/-- Signals not registered by a block keep their previous disposition. -/
theorem regGroup_pres (t : Table) (e : Bool) (d : Disposition) (f : Nat)
    (l : List (Sig × Bool)) (m : String) (x : Sig) (h : ∀ p ∈ l, ¬ x = p.1) :
    (regGroup t e d f l m).1 x = t x := by
  cases e
  · rfl
  · simp only [regGroup]
    cases hh : (tryActions t d f l).2.2 <;>
      simp [hh, tryActions_pres l t d f x h]

/-- The trace of a block is clean exactly when the block succeeds. -/
theorem regGroup_clean_ok (t : Table) (e : Bool) (d : Disposition) (f : Nat)
    (l : List (Sig × Bool)) (m : String) :
    clean (regGroup t e d f l m).2.1 = (regGroup t e d f l m).2.2 :=
  (regGroup_clean t e d f l m).trans (regGroup_ok t e d f l m).symm

/-- Success condition of the shutdown-handler block. -/
theorem group1_ok (env : Env) (t : Table) :
    (group1 env t).2.2 =
      (env.emptyNormal && (env.saINT && (env.saQUIT && env.saTERM))) := by
  rw [group1, regGroup_ok]; simp

/-- Success condition of the SIGPIPE block. -/
theorem group2_ok (env : Env) (t : Table) :
    (group2 env t).2.2 = (env.emptyIgnored && env.saPIPE) := by
  rw [group2, regGroup_ok]; simp

/-- Success condition of the crash-handler block. -/
theorem group3_ok (env : Env) (t : Table) :
    (group3 env t).2.2 =
      (env.emptySegv &&
        (env.saSEGV && (env.saFPE && (env.saBUS && (env.saSYS && env.saABRT))))) := by
  rw [group3, regGroup_ok]; simp

/-- Success condition of the SIGHUP block. -/
theorem group4_ok (env : Env) (t : Table) :
    (group4 env t).2.2 = (env.emptyHup && env.saHUP) := by
  rw [group4, regGroup_ok]; simp

/-- Clean-trace condition for the four blocks. -/
theorem group1_clean (env : Env) (t : Table) :
    clean (group1 env t).2.1 = (group1 env t).2.2 := by
  rw [group1]; exact regGroup_clean_ok _ _ _ _ _ _

/-- Clean-trace condition for the SIGPIPE block. -/
theorem group2_clean (env : Env) (t : Table) :
    clean (group2 env t).2.1 = (group2 env t).2.2 := by
  rw [group2]; exact regGroup_clean_ok _ _ _ _ _ _

/-- Clean-trace condition for the crash-handler block. -/
theorem group3_clean (env : Env) (t : Table) :
    clean (group3 env t).2.1 = (group3 env t).2.2 := by
  rw [group3]; exact regGroup_clean_ok _ _ _ _ _ _

/-- Fail-fast for the shutdown-handler block. -/
theorem group1_noCall (env : Env) (t : Table) :
    noCallAfterFail (group1 env t).2.1 = true := by
  rw [group1]; exact regGroup_noCall _ _ _ _ _ _

/-- Fail-fast for the SIGPIPE block. -/
theorem group2_noCall (env : Env) (t : Table) :
    noCallAfterFail (group2 env t).2.1 = true := by
  rw [group2]; exact regGroup_noCall _ _ _ _ _ _

/-- Fail-fast for the crash-handler block. -/
theorem group3_noCall (env : Env) (t : Table) :
    noCallAfterFail (group3 env t).2.1 = true := by
  rw [group3]; exact regGroup_noCall _ _ _ _ _ _

/-- Fail-fast for the SIGHUP block. -/
theorem group4_noCall (env : Env) (t : Table) :
    noCallAfterFail (group4 env t).2.1 = true := by
  rw [group4]; exact regGroup_noCall _ _ _ _ _ _

/-- A failed shutdown-handler block ends with its log line. -/
theorem group1_lastLog (env : Env) (t : Table) (h : (group1 env t).2.2 = false) :
    lastIsLog (group1 env t).2.1 = true := by
  rw [group1] at h ⊢; exact regGroup_lastLog _ _ _ _ _ _ h

/-- A failed SIGPIPE block ends with its log line. -/
theorem group2_lastLog (env : Env) (t : Table) (h : (group2 env t).2.2 = false) :
    lastIsLog (group2 env t).2.1 = true := by
  rw [group2] at h ⊢; exact regGroup_lastLog _ _ _ _ _ _ h

/-- A failed crash-handler block ends with its log line. -/
theorem group3_lastLog (env : Env) (t : Table) (h : (group3 env t).2.2 = false) :
    lastIsLog (group3 env t).2.1 = true := by
  rw [group3] at h ⊢; exact regGroup_lastLog _ _ _ _ _ _ h

/-- A failed SIGHUP block ends with its log line. -/
theorem group4_lastLog (env : Env) (t : Table) (h : (group4 env t).2.2 = false) :
    lastIsLog (group4 env t).2.1 = true := by
  rw [group4] at h ⊢; exact regGroup_lastLog _ _ _ _ _ _ h

/-- `signal_start` returns true exactly when all fourteen calls succeed. -/
theorem signal_start_result (env : Env) : (signal_start env).1 = allOk env := by
  simp only [signal_start, allOk]
  cases h1 : (group1 env initTable).2.2
  · simp only [h1, Bool.false_eq_true, if_false]
    rw [group1_ok] at h1
    simp [h1]
  · simp only [h1, eq_self_iff_true, if_true]
    rw [group1_ok] at h1
    cases h2 : (group2 env (group1 env initTable).1).2.2
    · simp only [h2, Bool.false_eq_true, if_false]
      rw [group2_ok] at h2
      simp [h1, h2]
    · simp only [h2, eq_self_iff_true, if_true]
      rw [group2_ok] at h2
      cases h3 : (group3 env (group2 env (group1 env initTable).1).1).2.2
      · simp only [h3, Bool.false_eq_true, if_false]
        rw [group3_ok] at h3
        simp [h1, h2, h3]
      · simp only [h3, eq_self_iff_true, if_true]
        rw [group3_ok] at h3
        rw [group4_ok]
        simp [h1, h2, h3]

/-- Fail-fast across the whole bootstrap: after the first failed call, no
further registration call appears in the trace. -/
theorem signal_start_noCall (env : Env) :
    noCallAfterFail (signal_start env).2.2 = true := by
  simp only [signal_start]
  cases h1 : (group1 env initTable).2.2
  · simp only [h1, Bool.false_eq_true, if_false]
    exact group1_noCall env initTable
  · simp only [h1, eq_self_iff_true, if_true]
    cases h2 : (group2 env (group1 env initTable).1).2.2
    · simp only [h2, Bool.false_eq_true, if_false]
      exact noCallAfterFail_append _ _
        ((group1_clean env initTable).trans h1)
        (group2_noCall env _)
    · simp only [h2, eq_self_iff_true, if_true]
      cases h3 : (group3 env (group2 env (group1 env initTable).1).1).2.2
      · simp only [h3, Bool.false_eq_true, if_false]
        exact noCallAfterFail_append _ _
          ((group1_clean env initTable).trans h1)
          (noCallAfterFail_append _ _
            ((group2_clean env _).trans h2)
            (group3_noCall env _))
      · simp only [h3, eq_self_iff_true, if_true]
        exact noCallAfterFail_append _ _
          ((group1_clean env initTable).trans h1)
          (noCallAfterFail_append _ _
            ((group2_clean env _).trans h2)
            (noCallAfterFail_append _ _
              ((group3_clean env _).trans h3)
              (group4_noCall env _)))

/-- Whenever the bootstrap fails, its trace ends with the failure log line. -/
theorem signal_start_faillog (env : Env) (h : (signal_start env).1 = false) :
    lastIsLog (signal_start env).2.2 = true := by
  simp only [signal_start] at h ⊢
  cases h1 : (group1 env initTable).2.2
  · simp only [h1, Bool.false_eq_true, if_false]
    exact group1_lastLog env initTable h1
  · simp only [h1, eq_self_iff_true, if_true]
    cases h2 : (group2 env (group1 env initTable).1).2.2
    · simp only [h2, Bool.false_eq_true, if_false]
      exact lastIsLog_append _ _ (group2_lastLog env _ h2)
    · simp only [h2, eq_self_iff_true, if_true]
      cases h3 : (group3 env (group2 env (group1 env initTable).1).1).2.2
      · simp only [h3, Bool.false_eq_true, if_false]
        exact lastIsLog_append _ _ (lastIsLog_append _ _ (group3_lastLog env _ h3))
      · simp only [h1, h2, h3, eq_self_iff_true, if_true] at h
        exact lastIsLog_append _ _ (lastIsLog_append _ _
          (lastIsLog_append _ _ (group4_lastLog env _ h)))

/-- The SIGPIPE block touches no other signal. -/
theorem group2_pres (env : Env) (t : Table) (x : Sig) (hx : ¬ x = Sig.SIGPIPE) :
    (group2 env t).1 x = t x := by
  rw [group2]
  refine regGroup_pres _ _ _ _ _ _ _ ?_
  intro p hp
  simp only [List.mem_cons, List.not_mem_nil, or_false] at hp
  subst hp
  exact hx

/-- The crash-handler block touches only the five fatal signals. -/
theorem group3_pres (env : Env) (t : Table) (x : Sig)
    (ha : ¬ x = Sig.SIGSEGV) (hb : ¬ x = Sig.SIGFPE) (hc : ¬ x = Sig.SIGBUS)
    (hd : ¬ x = Sig.SIGSYS) (he : ¬ x = Sig.SIGABRT) :
    (group3 env t).1 x = t x := by
  rw [group3]
  refine regGroup_pres _ _ _ _ _ _ _ ?_
  intro p hp
  simp only [List.mem_cons, List.not_mem_nil, or_false] at hp
  rcases hp with rfl | rfl | rfl | rfl | rfl
  exacts [ha, hb, hc, hd, he]

/-- The SIGHUP block touches no other signal. -/
theorem group4_pres (env : Env) (t : Table) (x : Sig) (hx : ¬ x = Sig.SIGHUP) :
    (group4 env t).1 x = t x := by
  rw [group4]
  refine regGroup_pres _ _ _ _ _ _ _ ?_
  intro p hp
  simp only [List.mem_cons, List.not_mem_nil, or_false] at hp
  subst hp
  exact hx

/-- Once the shutdown-handler block has succeeded, the final table of
`signal_start` agrees with the table that block produced on every signal the
later blocks do not register — regardless of which later call fails. -/
theorem signal_start_pres (env : Env) (x : Sig)
    (h1 : (group1 env initTable).2.2 = true)
    (hx2 : ¬ x = Sig.SIGPIPE)
    (hxa : ¬ x = Sig.SIGSEGV) (hxb : ¬ x = Sig.SIGFPE) (hxc : ¬ x = Sig.SIGBUS)
    (hxd : ¬ x = Sig.SIGSYS) (hxe : ¬ x = Sig.SIGABRT)
    (hx4 : ¬ x = Sig.SIGHUP) :
    (signal_start env).2.1 x = (group1 env initTable).1 x := by
  simp only [signal_start, h1, eq_self_iff_true, if_true]
  cases h2 : (group2 env (group1 env initTable).1).2.2
  · simp only [h2, Bool.false_eq_true, if_false]
    exact group2_pres env _ x hx2
  · simp only [h2, eq_self_iff_true, if_true]
    cases h3 : (group3 env (group2 env (group1 env initTable).1).1).2.2
    · simp only [h3, Bool.false_eq_true, if_false]
      rw [group3_pres env _ x hxa hxb hxc hxd hxe]
      exact group2_pres env _ x hx2
    · simp only [h3, eq_self_iff_true, if_true]
      rw [group4_pres env _ x hx4, group3_pres env _ x hxa hxb hxc hxd hxe]
      exact group2_pres env _ x hx2

/-- Iterated delivery of a signal whose disposition is ignore: the table is
unchanged, the process survives, and no handler is ever invoked. -/
theorem deliverN_ignore (t : Table) (s : Sig) (f : Nat)
    (h : t s = (Disposition.ignore, f)) :
    ∀ n, deliverN t s n = (t, true, 0) := by
  intro n
  induction n with
  | zero => rfl
  | succ k ih =>
      have hd : deliver t s = (t, none, true) := by
        unfold deliver
        rw [h]
      simp only [deliverN, hd]
      rw [ih]
      simp

/-- C4: `signal_start` returns true exactly when every one of its
`sigemptyset` / `sigaction` calls succeeds; when a call fails it logs the
failure as the last event of its trace, returns false, and attempts no
further registration call after the failed one. -/
theorem signal_start_all_or_abort (env : Env) :
    ((signal_start env).1 = true ↔ allOk env = true) ∧
    noCallAfterFail (signal_start env).2.2 = true ∧
    ((signal_start env).1 = false → lastIsLog (signal_start env).2.2 = true) :=
  ⟨by rw [signal_start_result], signal_start_noCall env, signal_start_faillog env⟩

/-- C4 witness: in the environment where only the SIGPIPE registration fails,
the bootstrap returns false and its trace ends with the failure log line. -/
theorem signal_start_all_or_abort_witness :
    (signal_start envPipeFail).1 = false ∧
    lastIsLog (signal_start envPipeFail).2.2 = true ∧
    noCallAfterFail (signal_start envPipeFail).2.2 = true ∧
    allOk envPipeFail = false :=
  ⟨by decide,
   (signal_start_all_or_abort envPipeFail).2.2 (by decide),
   (signal_start_all_or_abort envPipeFail).2.1,
   by decide⟩

/-- C9: if the shutdown-handler registrations (the first block) succeed, the
shutdown handler stays installed on SIGINT, SIGQUIT and SIGTERM in the final
disposition table of `signal_start` no matter which later registration fails:
the bootstrap performs no rollback on error. -/
theorem signal_start_no_rollback (env : Env)
    (h : (env.emptyNormal && (env.saINT && (env.saQUIT && env.saTERM))) = true) :
    (signal_start env).2.1 Sig.SIGINT = (Disposition.handler HandlerId.hShutdown, 0) ∧
    (signal_start env).2.1 Sig.SIGQUIT = (Disposition.handler HandlerId.hShutdown, 0) ∧
    (signal_start env).2.1 Sig.SIGTERM = (Disposition.handler HandlerId.hShutdown, 0) := by
  obtain ⟨e1, i, q, tm, e2, pp, e3, sv, fp, bu, sy, ab, e4, hp⟩ := env
  simp only [Bool.and_eq_true] at h
  obtain ⟨he1, hi, hq, htm⟩ := h
  subst he1; subst hi; subst hq; subst htm
  have h1 : (group1 ⟨true, true, true, true, e2, pp, e3, sv, fp, bu, sy, ab, e4, hp⟩
      initTable).2.2 = true := rfl
  refine ⟨?_, ?_, ?_⟩
  · rw [signal_start_pres _ Sig.SIGINT h1 (by decide) (by decide) (by decide)
      (by decide) (by decide) (by decide) (by decide)]
    rfl
  · rw [signal_start_pres _ Sig.SIGQUIT h1 (by decide) (by decide) (by decide)
      (by decide) (by decide) (by decide) (by decide)]
    rfl
  · rw [signal_start_pres _ Sig.SIGTERM h1 (by decide) (by decide) (by decide)
      (by decide) (by decide) (by decide) (by decide)]
    rfl

/-- C9 witness: a failed SIGPIPE registration returns false yet leaves the
shutdown handler installed on SIGINT. -/
theorem signal_start_no_rollback_witness :
    (signal_start envPipeFail).1 = false ∧
    (signal_start envPipeFail).2.1 Sig.SIGINT =
      (Disposition.handler HandlerId.hShutdown, 0) :=
  ⟨by decide, (signal_start_no_rollback envPipeFail (by decide)).1⟩

/-- C2: `signal_segfault` restores SIGABRT to the default disposition before
calling `abort()` and never returns normally; a successful bootstrap installs
it on all five fatal signals with the one-shot flag `SA_RESETHAND`, so a
first delivery of any fatal signal invokes the handler while resetting the
disposition to default, and a second delivery (for instance raised from
inside the handler) no longer enters the handler. -/
theorem signal_segfault_one_shot (sig : Int) (env : Env) (h : allOk env = true) :
    ((signal_segfault sig).1 =
      [Event.logCritical crashLogMsg, Event.restoreDefault Sig.SIGABRT,
       Event.abortCall]) ∧
    (signal_segfault sig).2 = HandlerExit.aborted ∧
    (∀ s ∈ fatalSigs,
      (signal_start env).2.1 s =
        (Disposition.handler HandlerId.hSegfault, SA_RESETHAND)) ∧
    (∀ s ∈ fatalSigs,
      (deliver (signal_start env).2.1 s).2.1 = some HandlerId.hSegfault ∧
      (deliver (signal_start env).2.1 s).1 s = (Disposition.dfl, 0) ∧
      (deliver (deliver (signal_start env).2.1 s).1 s).2.1 = none) := by
  obtain ⟨e1, i, q, tm, e2, pp, e3, sv, fp, bu, sy, ab, e4, hp⟩ := env
  simp only [allOk, Bool.and_eq_true] at h
  obtain ⟨⟨he1, hi, hq, htm⟩, ⟨he2, hpp⟩, ⟨he3, hsv, hfp, hbu, hsy, hab⟩, he4, hhp⟩ := h
  subst he1; subst hi; subst hq; subst htm; subst he2; subst hpp
  subst he3; subst hsv; subst hfp; subst hbu; subst hsy; subst hab
  subst he4; subst hhp
  exact ⟨rfl, rfl, by decide, by decide⟩

/-- C2 witness: with every registration succeeding, SIGSEGV is delivered into
the crash handler once, and a second delivery no longer enters it. -/
theorem signal_segfault_one_shot_witness :
    allOk envAll = true ∧
    (deliver (signal_start envAll).2.1 Sig.SIGSEGV).2.1 = some HandlerId.hSegfault ∧
    (deliver (deliver (signal_start envAll).2.1 Sig.SIGSEGV).1 Sig.SIGSEGV).2.1 = none :=
  ⟨by decide,
   ((signal_segfault_one_shot 11 envAll (by decide)).2.2.2 Sig.SIGSEGV (by decide)).1,
   ((signal_segfault_one_shot 11 envAll (by decide)).2.2.2 Sig.SIGSEGV (by decide)).2.2⟩

/-- C8: a successful bootstrap leaves SIGPIPE with the explicit ignore
disposition, and any number of subsequent SIGPIPE deliveries leaves the table
unchanged, keeps the process alive, and invokes no handler (hence logs
nothing: only handlers emit events). -/
theorem sigpipe_ignored (env : Env) (h : allOk env = true) :
    (signal_start env).2.1 Sig.SIGPIPE = (Disposition.ignore, 0) ∧
    (∀ n, deliverN (signal_start env).2.1 Sig.SIGPIPE n =
      ((signal_start env).2.1, true, 0)) := by
  obtain ⟨e1, i, q, tm, e2, pp, e3, sv, fp, bu, sy, ab, e4, hp⟩ := env
  simp only [allOk, Bool.and_eq_true] at h
  obtain ⟨⟨he1, hi, hq, htm⟩, ⟨he2, hpp⟩, ⟨he3, hsv, hfp, hbu, hsy, hab⟩, he4, hhp⟩ := h
  subst he1; subst hi; subst hq; subst htm; subst he2; subst hpp
  subst he3; subst hsv; subst hfp; subst hbu; subst hsy; subst hab
  subst he4; subst hhp
  have ht : (signal_start envAll).2.1 Sig.SIGPIPE = (Disposition.ignore, 0) := by decide
  exact ⟨ht, fun n => deliverN_ignore _ _ 0 ht n⟩

/-- C8 witness: five deliveries of SIGPIPE after a fully successful bootstrap
change nothing, keep the process alive, and invoke no handler. -/
theorem sigpipe_ignored_witness :
    (signal_start envAll).2.1 Sig.SIGPIPE = (Disposition.ignore, 0) ∧
    deliverN (signal_start envAll).2.1 Sig.SIGPIPE 5 =
      ((signal_start envAll).2.1, true, 0) :=
  ⟨(sigpipe_ignored envAll (by decide)).1, (sigpipe_ignored envAll (by decide)).2 5⟩

/-- `reachPairs` is closed under single steps of either thread. -/
theorem reach_step_closed :
    ∀ p ∈ reachPairs, ∀ t : Bool, stepOkB p t = true := by decide

/-- Step preservation: from a reachable (state, trace) pair, any enabled step
leads to a reachable pair. -/
theorem stepPreserve (s : RState) (tr : List (Bool × RInstr)) (t : Bool)
    (s1 : RState) (e : Bool × RInstr)
    (hmem : (s, tr) ∈ reachPairs) (hstep : rstep s t = some (s1, e)) :
    (s1, tr ++ [e]) ∈ reachPairs := by
  have h := reach_step_closed (s, tr) hmem t
  simp only [stepOkB, hstep] at h
  exact of_decide_eq_true h

/-- Any successful run starting from a reachable pair ends in a reachable
pair whose trace extends the starting trace by the emitted events. -/
theorem runSched_reach :
    ∀ (sch : List Bool) (s : RState) (tr0 : List (Bool × RInstr))
      (s2 : RState) (tr : List (Bool × RInstr)),
      (s, tr0) ∈ reachPairs → runSched s sch = some (s2, tr) →
      (s2, tr0 ++ tr) ∈ reachPairs := by
  intro sch
  induction sch with
  | nil =>
      intro s tr0 s2 tr hmem hrun
      simp only [runSched, Option.some.injEq] at hrun
      obtain ⟨rfl, rfl⟩ := (Prod.mk.injEq _ _ _ _).mp hrun
      simpa using hmem
  | cons t ts ih =>
      intro s tr0 s2 tr hmem hrun
      simp only [runSched] at hrun
      cases hstep : rstep s t with
      | none => simp [hstep] at hrun
      | some pe =>
          obtain ⟨s1, e⟩ := pe
          simp only [hstep] at hrun
          cases hrest : runSched s1 ts with
          | none => simp [hrest] at hrun
          | some p2 =>
              obtain ⟨s3, tr3⟩ := p2
              simp only [hrest, Option.some.injEq] at hrun
              obtain ⟨rfl, rfl⟩ := (Prod.mk.injEq _ _ _ _).mp hrun
              have h1 := stepPreserve s tr0 t s1 e hmem hstep
              have h2 := ih s1 (tr0 ++ [e]) s3 tr3 h1 hrest
              simpa [List.append_assoc] using h2

/-- A reachable pair in which both invocations have finished carries one of
the two serial traces. -/
theorem reach_complete (s : RState) (tr : List (Bool × RInstr))
    (hmem : (s, tr) ∈ reachPairs) (h0 : s.rest0 = []) (h1 : s.rest1 = []) :
    tr = serial01 ∨ tr = serial10 := by
  simp only [reachPairs, List.mem_cons, List.not_mem_nil, or_false] at hmem
  rcases hmem with h | h | h | h | h | h | h | h | h | h | h | h | h | h | h | h | h <;>
    (injection h with hs htr) <;>
    first
      | exact Or.inl htr
      | exact Or.inr htr
      | (exfalso; rw [hs] at h0; simp [refreshProg, rp3, rp2, rp1] at h0; done)
      | (exfalso; rw [hs] at h1; simp [refreshProg, rp3, rp2, rp1] at h1; done)

/-- C5: each `signal_refresh` invocation acquires `sig_hup_mutex` before
invoking `http_content_refresh` and releases it only afterwards (positions 0,
1 and 3 of its event list), and in the two-invocation interleaving model any
complete schedule produces one of the two serial traces: the invocation that
arrives second blocks on the lock until the first has unlocked, so the two
refresh invocations never overlap and neither is aborted. -/
theorem signal_refresh_serializes :
    (∀ (sig : Int) (ok : Bool),
      (signal_refresh sig ok).1[0]? = some (Event.mutexLock "sig_hup_mutex") ∧
      (signal_refresh sig ok).1[1]? = some (Event.httpContentRefresh ok) ∧
      (signal_refresh sig ok).1[3]? = some (Event.mutexUnlock "sig_hup_mutex") ∧
      (signal_refresh sig ok).1.length = 4) ∧
    (∀ (sch : List Bool) (s2 : RState) (tr : List (Bool × RInstr)),
      runSched initRState sch = some (s2, tr) →
      s2.rest0 = [] → s2.rest1 = [] →
      tr = serial01 ∨ tr = serial10) := by
  constructor
  · intro sig ok
    cases ok <;> exact ⟨rfl, rfl, rfl, rfl⟩
  · intro sch s2 tr hrun h0 h1
    have hmem : (s2, [] ++ tr) ∈ reachPairs :=
      runSched_reach sch initRState [] s2 tr (by decide) hrun
    rw [List.nil_append] at hmem
    exact reach_complete s2 tr hmem h0 h1

/-- C5 witness: the schedule that runs thread 0 to completion and then
thread 1 is a complete run, and its trace is serial. -/
theorem signal_refresh_serializes_witness :
    runSched initRState [false, false, false, false, true, true, true, true] =
      some (⟨[], [], none⟩, serial01) ∧
    (serial01 = serial01 ∨ serial01 = serial10) :=
  ⟨by decide,
   signal_refresh_serializes.2 [false, false, false, false, true, true, true, true]
     ⟨[], [], none⟩ serial01 (by decide) (by decide) (by decide)⟩
